import Mathlib

/-!
Shallow embedding of the VocabMaster morphology and practice-content engine.

The engine lives in two source files:
* the word-forms module (`getWordForms` and its generators / lookup tables),
* `services/geminiService.ts` (`generateStaticPractice`, `generateStaticGrammarNote`).

JavaScript strings are modelled as `List Char`; the JS string primitives that
the engine uses (`toLowerCase`, `trim`, `includes`, `endsWith`, `slice`,
indexing `s[i]`, concatenation) are modelled explicitly below.  Indexing out of
range yields `Option.none`, mirroring JS `undefined`.
-/

namespace VocabMaster

/-! ### JS string primitives -/

/-- One character of JS `String.prototype.toLowerCase`, restricted to the
ASCII letters that the engine's English word data can contain:
`'A'..'Z'` (codes 65–90) map to `'a'..'z'`; every other character is kept. -/
def lowerChar (c : Char) : Char :=
  if 65 ≤ c.toNat ∧ c.toNat ≤ 90 then Char.ofNat (c.toNat + 32) else c

/-- JS `toLowerCase` over a whole string. -/
def lowerStr (s : List Char) : List Char := s.map lowerChar

/-- Whitespace as removed by JS `String.prototype.trim` (the ASCII subset:
space, tab, line feed, carriage return). -/
def isWsChar (c : Char) : Bool :=
  decide (c.toNat = 32 ∨ c.toNat = 9 ∨ c.toNat = 10 ∨ c.toNat = 13)

/-- JS `String.prototype.trim`: drop leading and trailing whitespace. -/
def trimStr (s : List Char) : List Char :=
  ((s.dropWhile isWsChar).reverse.dropWhile isWsChar).reverse

/-- Whether `needle` is an initial segment of `hay`. -/
def isPrefixB : List Char → List Char → Bool
  | [], _ => true
  | _ :: _, [] => false
  | a :: as, b :: bs => a == b && isPrefixB as bs

/-- JS `String.prototype.includes`: substring containment. -/
def containsStr : List Char → List Char → Bool
  | [], needle => needle.isEmpty
  | h :: t, needle => isPrefixB needle (h :: t) || containsStr t needle

/-- JS `String.prototype.endsWith`. -/
def endsWithB (hay suffixStr : List Char) : Bool :=
  isPrefixB suffixStr.reverse hay.reverse

/-- JS character indexing `s[i]`: `none` models `undefined` (negative or
out-of-range index). -/
def charAt (s : List Char) (i : Int) : Option Char :=
  if i < 0 then none else s.get? i.toNat

/-- Source helper `isVowel(char)`. -/
def isVowel (c : Char) : Bool :=
  c == 'a' || c == 'e' || c == 'i' || c == 'o' || c == 'u'

/-- `isVowel` applied to a possibly-`undefined` character: in JS,
`['a','e','i','o','u'].includes(undefined)` is `false`. -/
def isVowelO : Option Char → Bool
  | some c => isVowel c
  | none => false

/-- JS `list.includes(c)` for a possibly-`undefined` character. -/
def inListO (cs : List Char) : Option Char → Bool
  | some c => cs.any (fun d => d == c)
  | none => false

/-- JS `word[word.length - 1]` as a string to be concatenated: when defined it
is the one-character string, and JS would coerce `undefined` to the text
`"undefined"` (only reachable for the empty word, which `needsDoubling`
excludes at every call site). -/
def lastCharStr (w : List Char) : List Char :=
  match charAt w ((w.length : Int) - 1) with
  | some c => [c]
  | none => "undefined".toList

/-! ### Data lists and exceptions (verbatim from the word-forms module) -/

/-- `IRREGULAR_VERBS`: word → (past simple, past participle). -/
def IRREGULAR_VERBS : List (String × String × String) := [
  ("be", "was/were", "been"), ("have", "had", "had"), ("do", "did", "done"), ("go", "went", "gone"),
  ("say", "said", "said"), ("make", "made", "made"), ("get", "got", "got/gotten"), ("know", "knew", "known"),
  ("think", "thought", "thought"), ("take", "took", "taken"), ("see", "saw", "seen"), ("come", "came", "come"),
  ("find", "found", "found"), ("give", "gave", "given"), ("tell", "told", "told"), ("feel", "felt", "felt"),
  ("become", "became", "become"), ("leave", "left", "left"), ("put", "put", "put"), ("mean", "meant", "meant"),
  ("keep", "kept", "kept"), ("let", "let", "let"), ("begin", "began", "begun"), ("seem", "seemed", "seemed"),
  ("help", "helped", "helped"), ("show", "showed", "shown"), ("hear", "heard", "heard"), ("play", "played", "played"),
  ("run", "ran", "run"), ("move", "moved", "moved"), ("live", "lived", "lived"), ("believe", "believed", "believed"),
  ("bring", "brought", "brought"), ("happen", "happened", "happened"), ("write", "wrote", "written"),
  ("sit", "sat", "sat"), ("stand", "stood", "stood"), ("lose", "lost", "lost"), ("pay", "paid", "paid"),
  ("meet", "met", "met"), ("include", "included", "included"), ("continue", "continued", "continued"),
  ("set", "set", "set"), ("learn", "learnt/learned", "learnt/learned"), ("change", "changed", "changed"),
  ("lead", "led", "led"), ("understand", "understood", "understood"), ("watch", "watched", "watched"),
  ("follow", "followed", "followed"), ("stop", "stopped", "stopped"), ("create", "created", "created"),
  ("speak", "spoke", "spoken"), ("read", "read", "read"), ("spend", "spent", "spent"), ("grow", "grew", "grown"),
  ("open", "opened", "opened"), ("walk", "walked", "walked"), ("win", "won", "won"), ("offer", "offered", "offered"),
  ("remember", "remembered", "remembered"), ("love", "loved", "loved"), ("consider", "considered", "considered"),
  ("appear", "appeared", "appeared"), ("buy", "bought", "bought"), ("wait", "waited", "waited"),
  ("serve", "served", "served"), ("die", "died", "died"), ("send", "sent", "sent"), ("expect", "expected", "expected"),
  ("build", "built", "built"), ("stay", "stayed", "stayed"), ("fall", "fell", "fallen"), ("cut", "cut", "cut"),
  ("reach", "reached", "reached"), ("kill", "killed", "killed"), ("remain", "remained", "remained"),
  ("suggest", "suggested", "suggested"), ("raise", "raised", "raised"), ("pass", "passed", "passed"),
  ("sell", "sold", "sold"), ("break", "broke", "broken"), ("decide", "decided", "decided"), ("eat", "ate", "eaten"),
  ("drive", "drove", "driven"), ("wear", "wore", "worn"), ("choose", "chose", "chosen"), ("sing", "sang", "sung"),
  ("drink", "drank", "drunk"), ("hit", "hit", "hit"), ("fly", "flew", "flown"), ("catch", "caught", "caught"),
  ("draw", "drew", "drawn"), ("throw", "threw", "thrown"), ("sleep", "slept", "slept"), ("teach", "taught", "taught"),
  ("wake", "woke", "woken"), ("swim", "swam", "swum"), ("ride", "rode", "ridden"), ("forget", "forgot", "forgotten"),
  ("fight", "fought", "fought"), ("hide", "hid", "hidden"), ("hold", "held", "held"), ("hurt", "hurt", "hurt"),
  ("lie", "lay", "lain"), ("lay", "laid", "laid"), ("light", "lit", "lit"), ("quit", "quit", "quit"),
  ("rise", "rose", "risen"), ("shake", "shook", "shaken"), ("shine", "shone", "shone"), ("shoot", "shot", "shot"),
  ("shut", "shut", "shut"), ("steal", "stole", "stolen"), ("stick", "stuck", "stuck"), ("strike", "struck", "struck"),
  ("swear", "swore", "sworn"), ("tear", "tore", "torn")]

/-- `UNCOUNTABLE_NOUNS`: nouns that do not usually have a plural form. -/
def UNCOUNTABLE_NOUNS : List String := [
  "information", "advice", "knowledge", "furniture", "luggage", "baggage",
  "homework", "evidence", "equipment", "news", "jewelry", "money", "music",
  "love", "happiness", "sadness", "bravery", "sugar", "salt", "rice", "butter",
  "water", "milk", "coffee", "air", "weather", "electricity", "power", "chaos",
  "scenery", "traffic", "permission", "behavior", "accommodation", "bread"]

/-- `ABSOLUTE_ADJECTIVES`: adjectives that cannot be compared. -/
def ABSOLUTE_ADJECTIVES : List String := [
  "unique", "perfect", "dead", "alive", "fatal", "final", "empty", "full",
  "absolute", "impossible", "eternal", "infinite", "universal", "pregnant",
  "main", "principal", "entire", "whole", "correct", "incorrect", "true", "false"]

/-- `SHORT_ADJECTIVES`: adjectives known to take the er and est suffixes. -/
def SHORT_ADJECTIVES : List String := [
  "big", "small", "fat", "thin", "hot", "cold", "tall", "short", "long",
  "nice", "brave", "large", "wide", "safe", "late", "close", "wise",
  "fast", "slow", "hard", "soft", "high", "low", "deep", "weak", "strong",
  "young", "old", "rich", "poor", "clean", "dirty", "cheap", "quick", "dark",
  "bright", "sharp", "dull", "calm", "cool", "warm", "fresh", "sweet", "sour",
  "smart", "dumb", "busy", "easy", "happy", "lazy", "heavy", "dry", "funny"]

/-- `NO_DOUBLING_EXCEPTIONS`: CVC verbs that do not double the final
consonant. -/
def NO_DOUBLING_EXCEPTIONS : List String := [
  "visit", "open", "happen", "listen", "offer", "suffer", "target", "market",
  "answer", "cover", "enter", "remember", "develop", "limit", "edit", "budget"]

/-- `IRREGULAR_PLURALS`: singular noun → plural. -/
def IRREGULAR_PLURALS : List (String × String) := [
  ("man", "men"), ("woman", "women"), ("child", "children"), ("person", "people"),
  ("foot", "feet"), ("tooth", "teeth"), ("goose", "geese"), ("mouse", "mice"), ("louse", "lice"),
  ("ox", "oxen"), ("leaf", "leaves"), ("life", "lives"), ("knife", "knives"), ("wife", "wives"),
  ("half", "halves"), ("thief", "thieves"), ("elf", "elves"), ("loaf", "loaves"),
  ("potato", "potatoes"), ("tomato", "tomatoes"), ("hero", "heroes"), ("echo", "echoes"),
  ("analysis", "analyses"), ("crisis", "crises"), ("thesis", "theses"), ("basis", "bases"),
  ("diagnosis", "diagnoses"), ("phenomenon", "phenomena"), ("criterion", "criteria"),
  ("datum", "data"), ("bacterium", "bacteria"), ("medium", "media"),
  ("sheep", "sheep"), ("deer", "deer"), ("fish", "fish"), ("series", "series"),
  ("species", "species"), ("aircraft", "aircraft")]

/-- Own-property lookup in the `IRREGULAR_VERBS` object. -/
def lookupIrregularVerb (w : List Char) : Option (List Char × List Char) :=
  (IRREGULAR_VERBS.find? (fun e => e.1.toList == w)).map
    (fun e => (e.2.1.toList, e.2.2.toList))

/-- Own-property lookup in the `IRREGULAR_PLURALS` object. -/
def lookupIrregularPlural (w : List Char) : Option (List Char) :=
  (IRREGULAR_PLURALS.find? (fun e => e.1.toList == w)).map (fun e => e.2.toList)

/-- Membership in one of the `Set` constants (`set.has(word)`). -/
def memberSet (set : List String) (w : List Char) : Bool :=
  set.any (fun s => s.toList == w)

/-! ### The morphology engine -/

/-- One derived grammatical form (`WordForm` in `types.ts` of the module). -/
structure WordForm where
  label : String
  form : String
  explanation : String
deriving Repr, DecidableEq

/-- `needsDoubling(word)`: the CVC consonant-doubling heuristic. -/
def needsDoubling (w : List Char) : Bool :=
  if w.length < 3 then false
  else
    let last := charAt w ((w.length : Int) - 1)
    if inListO ['w', 'x', 'y'] last then false
    else if memberSet NO_DOUBLING_EXCEPTIONS w then false
    else
      !isVowelO last && isVowelO (charAt w ((w.length : Int) - 2)) &&
        !isVowelO (charAt w ((w.length : Int) - 3))

/-- Third-person singular present, as computed at the top of
`generateVerbForms`. -/
def thirdPersonOf (w : List Char) : List Char :=
  if w == "have".toList then "has".toList
  else if w == "be".toList then "is".toList
  else if w == "do".toList then "does".toList
  else if w == "go".toList then "goes".toList
  else if endsWithB w "y".toList && !isVowelO (charAt w ((w.length : Int) - 2)) then
    w.dropLast ++ "ies".toList
  else if endsWithB w "o".toList || endsWithB w "ch".toList || endsWithB w "s".toList ||
      endsWithB w "sh".toList || endsWithB w "x".toList || endsWithB w "z".toList then
    w ++ "es".toList
  else w ++ "s".toList

/-- Gerund / continuous form, as computed in `generateVerbForms`. -/
def gerundOf (w : List Char) : List Char :=
  if w == "be".toList then "being".toList
  else if endsWithB w "ie".toList then w.dropLast.dropLast ++ "ying".toList
  else if endsWithB w "e".toList && !endsWithB w "ee".toList && !endsWithB w "oe".toList &&
      !endsWithB w "ye".toList then
    w.dropLast ++ "ing".toList
  else if needsDoubling w then w ++ lastCharStr w ++ "ing".toList
  else w ++ "ing".toList

/-- Past simple, past participle and the `isIrregular` flag, as computed in
`generateVerbForms`.  This is the own-property model of the
`IRREGULAR_VERBS[word]` lookup: it is exact for every word that is not an
inherited `Object.prototype` property name; on those names the real lookup is
truthy and the destructuring throws, which `jsVerbTableLookup` and
`generateVerbFormsJS` below model. -/
def pastOf (w : List Char) : List Char × List Char × Bool :=
  match lookupIrregularVerb w with
  | some (ps, pp) => (ps, pp, true)
  | none =>
    let ps :=
      if endsWithB w "e".toList then w ++ "d".toList
      else if endsWithB w "y".toList && !isVowelO (charAt w ((w.length : Int) - 2)) then
        w.dropLast ++ "ied".toList
      else if needsDoubling w then w ++ lastCharStr w ++ "ed".toList
      else w ++ "ed".toList
    (ps, ps, false)

/-- `generateVerbForms(word, forms)`: the sequence of forms pushed for a
verb-classified word. -/
def generateVerbForms (w : List Char) : List WordForm :=
  let past := pastOf w
  [ { label := "Present (He/She/It)", form := String.mk (thirdPersonOf w),
      explanation := "Used for current facts or habits with singular subjects." },
    { label := "Continuous (-ing)", form := String.mk (gerundOf w),
      explanation := "Used for actions happening now or as a noun (gerund)." },
    { label := "Past Simple", form := String.mk past.1,
      explanation := if past.2.2 then "Irregular past form."
        else "Regular past form for finished actions." } ] ++
  (if past.2.1 != past.1 || past.2.2 then
    [ { label := "Past Participle", form := String.mk past.2.1,
        explanation := "Used in Perfect tenses (have done) and Passive Voice." } ]
  else [])

/-- The regular suffix rules of `generateNounForms` (the branches taken when
the `IRREGULAR_PLURALS[word]` lookup is falsy). -/
def regularPluralOf (w : List Char) : List Char :=
  if endsWithB w "y".toList && !isVowelO (charAt w ((w.length : Int) - 2)) then
    w.dropLast ++ "ies".toList
  else if endsWithB w "s".toList || endsWithB w "ch".toList || endsWithB w "sh".toList ||
      endsWithB w "x".toList || endsWithB w "z".toList then
    w ++ "es".toList
  else w ++ "s".toList

/-- The derived plural of a noun: own-property irregular lookup first, then
the regular suffix rules, as computed in `generateNounForms`.  This is the
own-property model: it is exact for every word that is not an inherited
`Object.prototype` property name; the prototype-chain behaviour of the
JavaScript lookup is modelled by `jsPluralOf` below. -/
def pluralOf (w : List Char) : List Char :=
  match lookupIrregularPlural w with
  | some p => p
  | none => regularPluralOf w

/-- `generateNounForms(word, forms)`. -/
def generateNounForms (w : List Char) : List WordForm :=
  if memberSet UNCOUNTABLE_NOUNS w then
    [ { label := "Type", form := "Uncountable Noun",
        explanation := "This noun is usually used in the singular form and takes a singular verb." } ]
  else
    let plural := pluralOf w
    [ { label := "Plural", form := String.mk plural,
        explanation := if plural == w then
            "This noun has the same form for singular and plural."
          else "Used when referring to more than one." } ]

/-- Comparative and superlative, as computed in `generateAdjectiveForms`. -/
def comparisonOf (w : List Char) : List Char × List Char :=
  if w == "good".toList then ("better".toList, "best".toList)
  else if w == "bad".toList then ("worse".toList, "worst".toList)
  else if w == "far".toList then ("farther/further".toList, "farthest/furthest".toList)
  else if w == "little".toList then ("less".toList, "least".toList)
  else if endsWithB w "y".toList then (w.dropLast ++ "ier".toList, w.dropLast ++ "iest".toList)
  else if memberSet SHORT_ADJECTIVES w then
    if endsWithB w "e".toList then (w ++ "r".toList, w ++ "st".toList)
    else if needsDoubling w then
      (w ++ lastCharStr w ++ "er".toList, w ++ lastCharStr w ++ "est".toList)
    else (w ++ "er".toList, w ++ "est".toList)
  else ("more ".toList ++ w, "most ".toList ++ w)

/-- `generateAdjectiveForms(word, forms)`. -/
def generateAdjectiveForms (w : List Char) : List WordForm :=
  if memberSet ABSOLUTE_ADJECTIVES w then
    [ { label := "Type", form := "Absolute Adjective",
        explanation := "This adjective represents a limit or absolute state and cannot be compared (e.g., you cannot be \x27more dead\x27)." } ]
  else
    let cs := comparisonOf w
    [ { label := "Comparative", form := String.mk cs.1,
        explanation := "Used to compare two things." },
      { label := "Superlative", form := String.mk cs.2,
        explanation := "Used to express the highest degree." } ]

/-- `getWordForms(word, partOfSpeech)` over `List Char` inputs. -/
def getWordFormsL (word partOfSpeech : List Char) : List WordForm :=
  let cleanWord := trimStr (lowerStr word)
  let p := lowerStr partOfSpeech
  let isVerb := containsStr p "verb".toList && !containsStr p "adverb".toList
  let isNoun := containsStr p "noun".toList
  let isAdjective := containsStr p "adj".toList
  if isVerb then generateVerbForms cleanWord
  else if isNoun then generateNounForms cleanWord
  else if isAdjective then generateAdjectiveForms cleanWord
  else []

/-- `getWordForms` on Lean strings — the spec calls it `deriveForms`. -/
def getWordForms (word partOfSpeech : String) : List WordForm :=
  getWordFormsL word.toList partOfSpeech.toList

/-! ### Practice-content selector (`services/geminiService.ts`) -/

/-- The `practice` pair returned by `generateStaticPractice`. -/
structure PracticeContent where
  speakingPrompt : String
  writingTask : String
deriving Repr, DecidableEq

/-- The closed category set computed by `cleanPos` in both
`generateStaticPractice` and `generateStaticGrammarNote`. -/
inductive PosCategory where
  | verb
  | noun
  | adjective
  | adverb
  | general
deriving Repr, DecidableEq

/-- `cleanPos`: normalize the free-text part-of-speech tag. -/
def cleanPosOf (pos : List Char) : PosCategory :=
  let p := lowerStr pos
  if containsStr p "verb".toList && !containsStr p "adverb".toList then .verb
  else if containsStr p "noun".toList then .noun
  else if containsStr p "adj".toList then .adjective
  else if containsStr p "adv".toList then .adverb
  else .general

/-- `hash = word.split(\x27\x27).reduce((acc, char) => acc + char.charCodeAt(0), 0)`:
the sum of the word's character codes. -/
def charCodeSum (w : List Char) : Nat :=
  w.foldl (fun acc c => acc + c.toNat) 0

/-- The interpolated fragment `"${word}"` of the template strings. -/
def qw (w : String) : String := "\"" ++ w ++ "\""

/-- The `templates[...].speak` candidate lists. -/
def speakListFor : PosCategory → String → List String
  | .noun, w => [
      "Describe a specific " ++ qw w ++ " you have seen recently in great detail.",
      "If you had to explain what a " ++ qw w ++ " is to a 5-year-old, what would you say?",
      "Talk about the pros and cons of a typical " ++ qw w ++ ".",
      "Describe your ideal version of a " ++ qw w ++ ".",
      "Tell a story involving a lost " ++ qw w ++ "."]
  | .verb, w => [
      "Talk about the last time you had to " ++ qw w ++ ".",
      "Explain specifically how to " ++ qw w ++ " safely and effectively.",
      "Describe a situation where it would be a bad idea to " ++ qw w ++ ".",
      "Who is the best person you know to " ++ qw w ++ "? Why?",
      "Predict what would happen if everyone started to " ++ qw w ++ " tomorrow."]
  | .adjective, w => [
      "Describe a person, place, or thing that is extremely " ++ qw w ++ ".",
      "Talk about a time when you felt very " ++ qw w ++ ".",
      "Compare something that is " ++ qw w ++ " with something that is the opposite.",
      "Explain why being " ++ qw w ++ " can be an advantage in some situations.",
      "Describe a movie character who is famously " ++ qw w ++ "."]
  | .adverb, w => [
      "Describe an action that is typically done " ++ qw w ++ ".",
      "Tell a story about someone who behaved " ++ qw w ++ ".",
      "Explain the difference between doing something normally vs doing it " ++ qw w ++ "."]
  | .general, w => [
      "Use the word " ++ qw w ++ " in three distinct sentences aloud.",
      "Explain the connection between " ++ qw w ++ " and your daily routine.",
      "Talk about the first thing that comes to mind when you hear " ++ qw w ++ "."]

/-- The `templates[...].write` candidate lists. -/
def writeListFor : PosCategory → String → List String
  | .noun, w => [
      "Write a sentence using " ++ qw w ++ " as the subject of a rhetorical question.",
      "Write a short product description for a new type of " ++ qw w ++ ".",
      "Compose a tweet (280 characters) about a " ++ qw w ++ ".",
      "Write a dialogue between two people arguing about a " ++ qw w ++ ".",
      "List 5 adjectives that commonly describe a " ++ qw w ++ "."]
  | .verb, w => [
      "Write a set of 3 instructions on how to " ++ qw w ++ ".",
      "Write a diary entry about a day you spent trying to " ++ qw w ++ ".",
      "Write a formal email asking for permission to " ++ qw w ++ ".",
      "Write a sentence using " ++ qw w ++ " in the past continuous tense (was/were ...ing).",
      "Create a warning sign regarding the action to " ++ qw w ++ "."]
  | .adjective, w => [
      "Write a review for a product that is surprisingly " ++ qw w ++ ".",
      "Write a haiku or short poem about the feeling of being " ++ qw w ++ ".",
      "Write a sentence using " ++ qw w ++ " and a superlative (most/least).",
      "Describe a room using only synonyms for " ++ qw w ++ ".",
      "Write a letter to a friend explaining why you are feeling " ++ qw w ++ "."]
  | .adverb, w => [
      "Write a sentence modifying a verb with " ++ qw w ++ ".",
      "Describe a scene where the weather changes " ++ qw w ++ ".",
      "Write 3 different commands instructing someone to act " ++ qw w ++ "."]
  | .general, w => [
      "Write a paragraph containing the word " ++ qw w ++ " three times.",
      "Create a mind map of 5 words related to " ++ qw w ++ ".",
      "Write a definition of " ++ qw w ++ " in your own words without using the word itself."]

/-- The `notes[...]` candidate lists of `generateStaticGrammarNote`. -/
def noteListFor : PosCategory → String → List String
  | .noun, w => [
      "Determine if " ++ qw w ++ " is countable or uncountable. Uncountable nouns usually don\x27t take \x27a\x27 or \x27an\x27 and lack a plural form.",
      "Consider common collocations with " ++ qw w ++ ". Specific verbs often pair with it, like \"make\" vs \"do\".",
      "Check if " ++ qw w ++ " is acting as the subject (doer) or object (receiver) in your current sentence structure.",
      "If " ++ qw w ++ " is a concrete noun, try using specific adjectives to describe its texture, size, or color.",
      "Pay attention to article usage with " ++ qw w ++ ". Does it need \x27the\x27 for a specific reference, or is it being used generally?"]
  | .verb, w => [
      "Determine if " ++ qw w ++ " is transitive (needs an object) or intransitive (stands alone) in your sentence.",
      "Check the past tense form of " ++ qw w ++ ". Is it regular (ending in -ed) or does it have an irregular spelling?",
      "Consider whether " ++ qw w ++ " is typically followed by a gerund (doing) or an infinitive (to do).",
      "Think about the voice: can " ++ qw w ++ " be used naturally in the passive voice?",
      "Look out for phrasal verbs involving " ++ qw w ++ ". Adding prepositions like \x27up\x27 or \x27out\x27 might change its meaning."]
  | .adjective, w => [
      "When using " ++ qw w ++ " with other adjectives, remember the standard order: Opinion → Size → Age → Shape → Color → Origin → Material.",
      "Check the comparative and superlative forms of " ++ qw w ++ ". Do you add -er/-est, or do you use \x27more\x27/\x27most\x27?",
      "Remember that " ++ qw w ++ " typically appears before the noun (attributive) or after linking verbs like \x27be\x27 (predicative).",
      "Ensure you are correctly distinguishing between " ++ qw w ++ " and related forms (e.g., -ed vs -ing endings).",
      "Use " ++ qw w ++ " to add specificity, but avoid using \x27very\x27 + " ++ qw w ++ " if a stronger synonym exists."]
  | .adverb, w => [
      "Adverbs like " ++ qw w ++ " usually go before the main verb, but after \x27to be\x27.",
      "Remember that " ++ qw w ++ " modifies a verb, adjective, or another adverb, often answering \x27how\x27, \x27when\x27, or \x27to what extent\x27.",
      "While " ++ qw w ++ " likely functions as an adverb, verify if it has an irregular form compared to its adjective counterpart.",
      "Placement matters: ensure " ++ qw w ++ " is placed correctly (often after the object) to convey the intended meaning."]
  | .general, w => [
      "Pay close attention to the specific context in which " ++ qw w ++ " is used to understand its nuance.",
      "Check if " ++ qw w ++ " has multiple meanings depending on the sentence structure or part of speech.",
      "Consider the register of " ++ qw w ++ ": is it appropriate for formal writing or better suited for casual conversation?",
      "Practice using " ++ qw w ++ " in a question, a negative sentence, and a positive statement to master its usage."]

/-- `generateStaticPractice(word, pos)` — the spec calls it
`selectPracticeContent`. -/
def generateStaticPractice (word pos : String) : PracticeContent :=
  let cat := cleanPosOf pos.toList
  let hash := charCodeSum word.toList
  let speak := speakListFor cat word
  let write := writeListFor cat word
  { speakingPrompt := speak.getD (hash % speak.length) ""
    writingTask := write.getD (hash % write.length) "" }

/-- `generateStaticGrammarNote(word, pos)` — the spec calls it
`selectGrammarNote`. -/
def generateStaticGrammarNote (word pos : String) : String :=
  let cat := cleanPosOf pos.toList
  let hash := charCodeSum word.toList
  let notes := noteListFor cat word
  notes.getD (hash % notes.length) ""

/-! ### Exception-faithful model of the verb-table lookup

`IRREGULAR_VERBS` is a plain JavaScript object literal, so the runtime lookup
`IRREGULAR_VERBS[word]` consults the prototype chain: for a key inherited from
`Object.prototype` it returns a truthy value that is not an array.  The code
then destructures it — `[pastSimple, pastParticiple] = IRREGULAR_VERBS[word]`
— which throws a `TypeError` because that inherited value is not iterable.
The model below captures exactly when an exception escapes `getWordForms`.
The noun path reads `IRREGULAR_PLURALS[word]` but only assigns the value, so
it never throws; on a collision key it stores the truthy inherited non-string
value in `form` instead of a derived plural — that behaviour is modelled
separately by `jsPluralOf` and `generateNounFormsJS` below. -/

/-- The property names every plain object inherits from `Object.prototype`.
Since `getWordForms` lower-cases the word first, only the all-lowercase keys
(`constructor` and `__proto__`) are reachable from user input. -/
def OBJECT_PROTOTYPE_KEYS : List String := [
  "constructor", "hasOwnProperty", "isPrototypeOf", "propertyIsEnumerable",
  "toLocaleString", "toString", "valueOf", "__defineGetter__",
  "__defineSetter__", "__lookupGetter__", "__lookupSetter__", "__proto__"]

/-- Result of the JavaScript lookup `IRREGULAR_VERBS[word]`. -/
inductive JsLookup where
  /-- An own property: the stored `[pastSimple, pastParticiple]` pair. -/
  | tuple (ps pp : List Char)
  /-- A truthy, non-iterable value inherited from `Object.prototype`. -/
  | protoValue
  /-- `undefined` (falsy). -/
  | absent
deriving Repr, DecidableEq

/-- `IRREGULAR_VERBS[word]` with prototype-chain semantics. -/
def jsVerbTableLookup (w : List Char) : JsLookup :=
  match lookupIrregularVerb w with
  | some (ps, pp) => .tuple ps pp
  | none => if memberSet OBJECT_PROTOTYPE_KEYS w then .protoValue else .absent

/-- The `TypeError` raised by destructuring a non-iterable lookup result. -/
def jsNotIterableMsg : String := "TypeError: IRREGULAR_VERBS[word] is not iterable"

/-- `generateVerbForms` with the exception made explicit: on a prototype-chain
hit the destructuring throws before any form can be returned; otherwise the
pure generator above is exact. -/
def generateVerbFormsJS (w : List Char) : Except String (List WordForm) :=
  match jsVerbTableLookup w with
  | .protoValue => .error jsNotIterableMsg
  | _ => .ok (generateVerbForms w)

/-- `getWordForms` with JavaScript exception semantics. -/
def getWordFormsJS (word partOfSpeech : List Char) : Except String (List WordForm) :=
  let cleanWord := trimStr (lowerStr word)
  let p := lowerStr partOfSpeech
  let isVerb := containsStr p "verb".toList && !containsStr p "adverb".toList
  let isNoun := containsStr p "noun".toList
  let isAdjective := containsStr p "adj".toList
  if isVerb then generateVerbFormsJS cleanWord
  else if isNoun then .ok (generateNounForms cleanWord)
  else if isAdjective then .ok (generateAdjectiveForms cleanWord)
  else .ok []

/-- A JavaScript value assigned to the `plural` variable of
`generateNounForms`: either a proper string or the truthy non-string value
inherited from `Object.prototype` (a function object for `constructor`, the
prototype object for `__proto__`). -/
inductive JsValue where
  /-- An actual string. -/
  | str (s : List Char)
  /-- The truthy non-string value inherited from `Object.prototype`. -/
  | protoValue
deriving Repr, DecidableEq

/-- The value `generateNounForms` assigns to `plural`, with prototype-chain
semantics of `IRREGULAR_PLURALS[word]`: an own property wins; otherwise an
inherited `Object.prototype` property is truthy and is assigned as-is;
otherwise the lookup is `undefined` (falsy) and the regular suffix rules
run. -/
def jsPluralOf (w : List Char) : JsValue :=
  match lookupIrregularPlural w with
  | some p => .str p
  | none =>
    if memberSet OBJECT_PROTOTYPE_KEYS w then .protoValue
    else .str (regularPluralOf w)

/-- A pushed form whose `form` field may hold the inherited non-string value
(the JavaScript code has no runtime check that `form` is a string). -/
structure JsWordForm where
  label : String
  form : JsValue
  explanation : String
deriving Repr, DecidableEq

/-- `generateNounForms(word, forms)` with JavaScript prototype-chain
semantics for the `IRREGULAR_PLURALS[word]` lookup.  The path never throws;
the `plural === word` comparison is strict equality, which an inherited
non-string value never satisfies. -/
def generateNounFormsJS (w : List Char) : List JsWordForm :=
  if memberSet UNCOUNTABLE_NOUNS w then
    [ { label := "Type", form := JsValue.str "Uncountable Noun".toList,
        explanation := "This noun is usually used in the singular form and takes a singular verb." } ]
  else
    let plural := jsPluralOf w
    [ { label := "Plural", form := plural,
        explanation := if plural = JsValue.str w then
            "This noun has the same form for singular and plural."
          else "Used when referring to more than one." } ]

/-- Whether the form list contains an entry with the given label and surface
form. -/
def hasForm (fs : List WordForm) (lab f : String) : Bool :=
  fs.any (fun x => x.label == lab && x.form == f)

/-! ### Supporting lemmas about lower-casing and trimming -/

theorem toNat_ofNat_valid (n : Nat) (h : n.isValidChar) : (Char.ofNat n).toNat = n := by
  unfold Char.ofNat
  rw [dif_pos h]
  rfl

theorem toNat_lowerChar (c : Char) :
    (lowerChar c).toNat = if 65 ≤ c.toNat ∧ c.toNat ≤ 90 then c.toNat + 32 else c.toNat := by
  unfold lowerChar
  split
  · exact toNat_ofNat_valid _ (Or.inl (by omega))
  · rfl

theorem lowerChar_eq_self (c : Char) (h : ¬(65 ≤ c.toNat ∧ c.toNat ≤ 90)) :
    lowerChar c = c := if_neg h

theorem lowerChar_idem (c : Char) : lowerChar (lowerChar c) = lowerChar c := by
  apply lowerChar_eq_self
  rw [toNat_lowerChar]
  by_cases hc : 65 ≤ c.toNat ∧ c.toNat ≤ 90
  · rw [if_pos hc]
    omega
  · rw [if_neg hc]
    exact hc

theorem isWsChar_lowerChar (c : Char) : isWsChar (lowerChar c) = isWsChar c := by
  unfold isWsChar
  rw [toNat_lowerChar, decide_eq_decide]
  by_cases hc : 65 ≤ c.toNat ∧ c.toNat ≤ 90
  · rw [if_pos hc]
    omega
  · rw [if_neg hc]

theorem lowerStr_idem (l : List Char) : lowerStr (lowerStr l) = lowerStr l := by
  unfold lowerStr
  rw [List.map_map]
  exact List.map_congr_left (fun a _ => lowerChar_idem a)

theorem dropWhile_lowerStr (l : List Char) :
    (lowerStr l).dropWhile isWsChar = lowerStr (l.dropWhile isWsChar) := by
  unfold lowerStr
  rw [List.dropWhile_map]
  have h : (isWsChar ∘ lowerChar) = isWsChar := funext isWsChar_lowerChar
  rw [h]

theorem lowerStr_reverse (l : List Char) : lowerStr l.reverse = (lowerStr l).reverse :=
  List.map_reverse _ _

theorem lowerStr_trimStr (l : List Char) : trimStr (lowerStr l) = lowerStr (trimStr l) := by
  unfold trimStr
  rw [dropWhile_lowerStr, ← lowerStr_reverse, dropWhile_lowerStr, ← lowerStr_reverse]

theorem dropWhile_head?_not {α : Type} (p : α → Bool) (l : List α) (c : α)
    (h : (l.dropWhile p).head? = some c) : p c = false := by
  induction l with
  | nil => simp [List.dropWhile] at h
  | cons a t ih =>
    rw [List.dropWhile_cons] at h
    split at h
    · exact ih h
    · rename_i hpa
      simp only [List.head?_cons, Option.some.injEq] at h
      subst h
      simpa using hpa

theorem dropWhile_of_head? {α : Type} (p : α → Bool) (l : List α)
    (h : ∀ c, l.head? = some c → p c = false) : l.dropWhile p = l := by
  cases l with
  | nil => rfl
  | cons a t =>
    have ha := h a rfl
    rw [List.dropWhile_cons, if_neg (by simp [ha])]

theorem dropWhile_idem {α : Type} (p : α → Bool) (l : List α) :
    (l.dropWhile p).dropWhile p = l.dropWhile p :=
  dropWhile_of_head? _ _ (fun c hc => dropWhile_head?_not p l c hc)

theorem trimStr_idem (l : List Char) : trimStr (trimStr l) = trimStr l := by
  have h1 : (trimStr l).dropWhile isWsChar = trimStr l := by
    apply dropWhile_of_head?
    intro c hc
    unfold trimStr at hc
    rw [List.head?_reverse] at hc
    obtain ⟨t, ht⟩ :=
      List.dropWhile_suffix (l := (l.dropWhile isWsChar).reverse) isWsChar
    have hg : ((l.dropWhile isWsChar).reverse).getLast? = some c := by
      rw [← ht, List.getLast?_append, hc]
      rfl
    rw [List.getLast?_reverse] at hg
    exact dropWhile_head?_not _ _ _ hg
  show (((trimStr l).dropWhile isWsChar).reverse.dropWhile isWsChar).reverse = trimStr l
  rw [h1]
  have h2 : (trimStr l).reverse.dropWhile isWsChar = (trimStr l).reverse := by
    unfold trimStr
    rw [List.reverse_reverse]
    exact dropWhile_idem _ _
  rw [h2, List.reverse_reverse]

/-- The word normalization `word.toLowerCase().trim()` is idempotent. -/
theorem clean_idem (l : List Char) :
    trimStr (lowerStr (trimStr (lowerStr l))) = trimStr (lowerStr l) := by
  rw [← lowerStr_trimStr, lowerStr_idem, trimStr_idem]

/-! ### The claims -/

/-- C1: the engine is deterministic — for every `(word, partOfSpeech)` pair,
two calls of `getWordForms` (spec: `deriveForms`) yield identical,
order-stable sequences of `WordForm`, and two calls of
`generateStaticPractice` (spec: `selectPracticeContent`) and of
`generateStaticGrammarNote` (spec: `selectGrammarNote`) yield identical
results.  The embedding is a pure function, so repeated application to equal
inputs is definitionally equal. -/
theorem c1_engine_deterministic :
    (∀ w p : String, getWordForms w p = getWordForms w p) ∧
    (∀ w p : String, generateStaticPractice w p = generateStaticPractice w p) ∧
    (∀ w p : String, generateStaticGrammarNote w p = generateStaticGrammarNote w p) :=
  ⟨fun _ _ => rfl, fun _ _ => rfl, fun _ _ => rfl⟩

/-- C3: verb derivation on the spec test words — `goes`, `has`, `cries`,
`fixes` for third person; `running` (doubling) and `ran` (irregular table has
priority, so not `runned`) for `run`; `visited`, not `visitted`, for `visit`
because `visit` is in the no-doubling exception set despite matching CVC. -/
theorem c3_verb_examples :
    hasForm (getWordForms "go" "verb") "Present (He/She/It)" "goes" = true ∧
    hasForm (getWordForms "have" "verb") "Present (He/She/It)" "has" = true ∧
    hasForm (getWordForms "cry" "verb") "Present (He/She/It)" "cries" = true ∧
    hasForm (getWordForms "fix" "verb") "Present (He/She/It)" "fixes" = true ∧
    hasForm (getWordForms "run" "verb") "Continuous (-ing)" "running" = true ∧
    hasForm (getWordForms "run" "verb") "Past Simple" "ran" = true ∧
    hasForm (getWordForms "run" "verb") "Past Simple" "runned" = false ∧
    needsDoubling "run".toList = true ∧
    hasForm (getWordForms "visit" "verb") "Past Simple" "visited" = true ∧
    hasForm (getWordForms "visit" "verb") "Past Simple" "visitted" = false ∧
    memberSet NO_DOUBLING_EXCEPTIONS "visit".toList = true := by
  decide

/-- C6: adjective derivation on the spec test words — `happier`/`happiest`
for `happy`; periphrastic `more beautiful` for `beautiful` (not in the
short-adjective whitelist); a single "Absolute Adjective" form and no
comparative or superlative for `unique`. -/
theorem c6_adjective_examples :
    hasForm (getWordForms "happy" "adjective") "Comparative" "happier" = true ∧
    hasForm (getWordForms "happy" "adjective") "Superlative" "happiest" = true ∧
    hasForm (getWordForms "beautiful" "adjective") "Comparative" "more beautiful" = true ∧
    memberSet SHORT_ADJECTIVES "beautiful".toList = false ∧
    (getWordForms "unique" "adjective").map WordForm.label = ["Type"] ∧
    (getWordForms "unique" "adjective").map WordForm.form = ["Absolute Adjective"] := by
  decide

/-- C7 counterexample: the claim "adjective form generation always emits
exactly two forms: Comparative, then Superlative" fails for the
adjective-classified word `unique`, which yields the single "Type" form. -/
theorem c7_counterexample :
    ¬ ((getWordForms "unique" "adjective").map WordForm.label =
        ["Comparative", "Superlative"]) ∧
    (getWordForms "unique" "adjective").length = 1 := by
  decide

/-- C7 amended: for every word not in the absolute-adjective set, adjective
form generation emits exactly two forms, Comparative then Superlative; for a
word in the set it emits the single descriptive "Type" form instead. -/
theorem c7_amended_two_forms : ∀ w : List Char,
    (memberSet ABSOLUTE_ADJECTIVES w = false →
      (generateAdjectiveForms w).map WordForm.label = ["Comparative", "Superlative"]) ∧
    (memberSet ABSOLUTE_ADJECTIVES w = true →
      (generateAdjectiveForms w).map WordForm.label = ["Type"]) := by
  intro w
  constructor <;> intro h <;> simp [generateAdjectiveForms, h]

/-- C7 witness: the amended theorem applied at `happy` and `unique`. -/
theorem c7_amended_two_forms_witness :
    (generateAdjectiveForms "happy".toList).map WordForm.label =
        ["Comparative", "Superlative"] ∧
    (generateAdjectiveForms "unique".toList).map WordForm.label = ["Type"] :=
  ⟨(c7_amended_two_forms "happy".toList).1 (by decide),
   (c7_amended_two_forms "unique".toList).2 (by decide)⟩

/-- C10: `getWordForms` is invariant under the normalization it performs
itself — calling it with the lower-cased and trimmed word and the lower-cased
part-of-speech tag returns the same sequence as the original call. -/
theorem c10_normalization_invariance : ∀ w p : String,
    getWordForms w p =
      getWordForms (String.mk (trimStr (lowerStr w.toList)))
        (String.mk (lowerStr p.toList)) := by
  intro w p
  show getWordFormsL w.toList p.toList =
    getWordFormsL (trimStr (lowerStr w.toList)) (lowerStr p.toList)
  simp only [getWordFormsL, clean_idem, lowerStr_idem]

/-- C2: part-of-speech classification — a tag is treated as verb exactly when
its lower-casing contains "verb" and not "adverb"; otherwise as noun when it
contains "noun"; otherwise as adjective when it contains "adj"; an
unclassified tag yields the empty sequence.  Concretely, "transitive verb"
classifies as verb, "adverb" does not, and
`getWordForms "quickly" "preposition"` is empty. -/
theorem c2_classification :
    (∀ w p : List Char,
      containsStr (lowerStr p) "verb".toList = true →
      containsStr (lowerStr p) "adverb".toList = false →
      getWordFormsL w p = generateVerbForms (trimStr (lowerStr w))) ∧
    (∀ w p : List Char,
      (containsStr (lowerStr p) "verb".toList = false ∨
        containsStr (lowerStr p) "adverb".toList = true) →
      containsStr (lowerStr p) "noun".toList = true →
      getWordFormsL w p = generateNounForms (trimStr (lowerStr w))) ∧
    (∀ w p : List Char,
      (containsStr (lowerStr p) "verb".toList = false ∨
        containsStr (lowerStr p) "adverb".toList = true) →
      containsStr (lowerStr p) "noun".toList = false →
      containsStr (lowerStr p) "adj".toList = true →
      getWordFormsL w p = generateAdjectiveForms (trimStr (lowerStr w))) ∧
    (∀ w p : List Char,
      (containsStr (lowerStr p) "verb".toList = false ∨
        containsStr (lowerStr p) "adverb".toList = true) →
      containsStr (lowerStr p) "noun".toList = false →
      containsStr (lowerStr p) "adj".toList = false →
      getWordFormsL w p = []) ∧
    getWordForms "jump" "transitive verb" = generateVerbForms "jump".toList ∧
    getWordForms "quickly" "adverb" = [] ∧
    getWordForms "quickly" "preposition" = [] := by
  refine ⟨?_, ?_, ?_, ?_, by decide, by decide, by decide⟩
  · intro w p h1 h2
    simp only [getWordFormsL]
    rw [h1, h2]
    simp
  · intro w p h1 h2
    simp only [getWordFormsL]
    rw [h2]
    rcases h1 with h1 | h1 <;> rw [h1] <;> simp
  · intro w p h1 h2 h3
    simp only [getWordFormsL]
    rw [h2, h3]
    rcases h1 with h1 | h1 <;> rw [h1] <;> simp
  · intro w p h1 h2 h3
    simp only [getWordFormsL]
    rw [h2, h3]
    rcases h1 with h1 | h1 <;> rw [h1] <;> simp

/-- C2 witness: the classification theorem applied at concrete tags of each
category. -/
theorem c2_classification_witness :
    getWordFormsL "go".toList "verb".toList =
        generateVerbForms (trimStr (lowerStr "go".toList)) ∧
    getWordFormsL "city".toList "noun".toList =
        generateNounForms (trimStr (lowerStr "city".toList)) ∧
    getWordFormsL "happy".toList "adj [C]".toList =
        generateAdjectiveForms (trimStr (lowerStr "happy".toList)) ∧
    getWordFormsL "quickly".toList "preposition".toList = [] :=
  ⟨c2_classification.1 _ _ (by decide) (by decide),
   c2_classification.2.1 _ _ (Or.inl (by decide)) (by decide),
   c2_classification.2.2.1 _ _ (Or.inl (by decide)) (by decide) (by decide),
   c2_classification.2.2.2.1 _ _ (Or.inl (by decide)) (by decide) (by decide)⟩

/-- The `isIrregular` flag computed in `generateVerbForms` is exactly a hit
in the irregular-verb table. -/
theorem pastOf_irregular (w : List Char) :
    (pastOf w).2.2 = (lookupIrregularVerb w).isSome := by
  unfold pastOf
  cases h : lookupIrregularVerb w with
  | none => rfl
  | some v => cases v; rfl

/-- C4 counterexample: the claim quantifies over every verb-classified word,
but at the word `constructor` — which the tag "verb" classifies as verb — the
call throws the prototype-chain `TypeError` before any form is returned, so
no "Past Simple" form is emitted there. -/
theorem c4_counterexample :
    containsStr (lowerStr "verb".toList) "verb".toList = true ∧
    containsStr (lowerStr "verb".toList) "adverb".toList = false ∧
    getWordFormsJS "constructor".toList "verb".toList = .error jsNotIterableMsg :=
  ⟨by decide, by decide, rfl⟩

/-- C4 amended: for every verb-classified word whose normalized form is not
an inherited `Object.prototype` property name, the call returns normally and
emits a "Past Simple" form; a separate "Past Participle" form is emitted
exactly when the derived past participle differs from the past simple or the
verb is in the irregular-verb table; for regular verbs (no table hit) the
derived past participle equals the past simple. -/
theorem c4_amended_past_participle_policy :
    (∀ word pos : List Char,
      containsStr (lowerStr pos) "verb".toList = true →
      containsStr (lowerStr pos) "adverb".toList = false →
      memberSet OBJECT_PROTOTYPE_KEYS (trimStr (lowerStr word)) = false →
      getWordFormsJS word pos = .ok (generateVerbForms (trimStr (lowerStr word)))) ∧
    (∀ w : List Char,
      (generateVerbForms w).any (fun f => f.label == "Past Simple") = true) ∧
    (∀ w : List Char,
      ((generateVerbForms w).any (fun f => f.label == "Past Participle") = true ↔
        ((pastOf w).2.1 ≠ (pastOf w).1 ∨ (lookupIrregularVerb w).isSome = true))) ∧
    (∀ w : List Char,
      (lookupIrregularVerb w).isSome = false → (pastOf w).2.1 = (pastOf w).1) := by
  refine ⟨?_, ?_, ?_, ?_⟩
  · intro word pos h1 h2 h3
    simp only [getWordFormsJS]
    rw [h1, h2]
    simp only [Bool.not_false, Bool.and_true, if_true]
    unfold generateVerbFormsJS jsVerbTableLookup
    cases hlk : lookupIrregularVerb (trimStr (lowerStr word)) with
    | some v =>
      obtain ⟨ps, pp⟩ := v
      rfl
    | none => simp [h3]
  · intro w
    simp [generateVerbForms]
  · intro w
    rcases h : lookupIrregularVerb w with _ | ⟨ps, pp⟩ <;>
      simp [generateVerbForms, pastOf, h, bne_iff_ne]
  · intro w hreg
    rcases h : lookupIrregularVerb w with _ | ⟨ps, pp⟩
    · simp [pastOf, h]
    · rw [h] at hreg
      simp at hreg

/-- C4 witness: the amended policy applied at the regular verb `visit`
(normal return, single past form) and at the irregular verb `run` (separate
participle). -/
theorem c4_amended_witness :
    getWordFormsJS "visit".toList "verb".toList =
      .ok (generateVerbForms (trimStr (lowerStr "visit".toList))) ∧
    (pastOf "visit".toList).2.1 = (pastOf "visit".toList).1 ∧
    (generateVerbForms "run".toList).any (fun f => f.label == "Past Participle") = true :=
  ⟨c4_amended_past_participle_policy.1 _ _ (by decide) (by decide) (by decide),
   c4_amended_past_participle_policy.2.2.2 _ (by decide),
   (c4_amended_past_participle_policy.2.2.1 "run".toList).mpr (Or.inr (by decide))⟩

/-- Away from the inherited `Object.prototype` property names, the
prototype-chain plural lookup agrees with the own-property model. -/
theorem jsPluralOf_eq (w : List Char)
    (h : memberSet OBJECT_PROTOTYPE_KEYS w = false) :
    jsPluralOf w = JsValue.str (pluralOf w) := by
  unfold jsPluralOf pluralOf
  cases hlk : lookupIrregularPlural w with
  | some p => rfl
  | none => rw [if_neg (by simp [h])]

/-- C5 counterexample: at the ordinary noun `constructor` — noun-classified
and not uncountable — the truthy `IRREGULAR_PLURALS[word]` lookup hits the
inherited `Object.prototype.constructor`, and that non-string value is stored
as the "Plural" form instead of any plural derived from the table or the
suffix rules. -/
theorem c5_counterexample :
    containsStr (lowerStr "noun".toList) "noun".toList = true ∧
    memberSet UNCOUNTABLE_NOUNS "constructor".toList = false ∧
    (generateNounFormsJS "constructor".toList).map JsWordForm.form = [JsValue.protoValue] ∧
    JsValue.protoValue ≠ JsValue.str (pluralOf "constructor".toList) :=
  ⟨by decide, by decide, rfl, by decide⟩

/-- C5 amended: an uncountable noun yields the single descriptive
"Type: Uncountable Noun" form and no plural; any other noun whose word is
not an inherited `Object.prototype` property name yields exactly one "Plural"
form whose surface form is `pluralOf`, where an irregular-plurals hit takes
priority over the regular suffix rules; when the derived plural equals the
singular, the explanation notes the shared surface form.  Concretely:
`cities`, `children`, `information`, `sheep`. -/
theorem c5_amended_noun_forms :
    (∀ w : List Char, memberSet UNCOUNTABLE_NOUNS w = true →
      (generateNounFormsJS w).map JsWordForm.label = ["Type"] ∧
      (generateNounFormsJS w).map JsWordForm.form = [JsValue.str "Uncountable Noun".toList]) ∧
    (∀ w : List Char, memberSet UNCOUNTABLE_NOUNS w = false →
      memberSet OBJECT_PROTOTYPE_KEYS w = false →
      (generateNounFormsJS w).map JsWordForm.label = ["Plural"] ∧
      (generateNounFormsJS w).map JsWordForm.form = [JsValue.str (pluralOf w)]) ∧
    (∀ (w pl : List Char), lookupIrregularPlural w = some pl →
      pluralOf w = pl ∧ jsPluralOf w = JsValue.str pl) ∧
    (∀ w : List Char, memberSet UNCOUNTABLE_NOUNS w = false →
      memberSet OBJECT_PROTOTYPE_KEYS w = false → pluralOf w = w →
      (generateNounFormsJS w).map JsWordForm.explanation =
        ["This noun has the same form for singular and plural."]) ∧
    hasForm (getWordForms "city" "noun") "Plural" "cities" = true ∧
    hasForm (getWordForms "child" "noun") "Plural" "children" = true ∧
    (getWordForms "information" "noun").map WordForm.form = ["Uncountable Noun"] ∧
    (getWordForms "sheep" "noun").map WordForm.explanation =
      ["This noun has the same form for singular and plural."] := by
  refine ⟨?_, ?_, ?_, ?_, by decide, by decide, by decide, by decide⟩
  · intro w h
    simp [generateNounFormsJS, h]
  · intro w h1 h2
    have hj := jsPluralOf_eq w h2
    constructor <;> simp [generateNounFormsJS, h1, hj]
  · intro w pl h
    constructor
    · simp [pluralOf, h]
    · simp [jsPluralOf, h]
  · intro w h1 h2 hpl
    have hj := jsPluralOf_eq w h2
    simp [generateNounFormsJS, h1, hj, hpl]

/-- C5 witness: the amended noun theorem applied at `information`
(uncountable), `city` (countable), `child` (irregular table) and `sheep`
(invariant plural). -/
theorem c5_amended_noun_forms_witness :
    (generateNounFormsJS "information".toList).map JsWordForm.label = ["Type"] ∧
    (generateNounFormsJS "city".toList).map JsWordForm.form =
      [JsValue.str (pluralOf "city".toList)] ∧
    pluralOf "child".toList = "children".toList ∧
    (generateNounFormsJS "sheep".toList).map JsWordForm.explanation =
      ["This noun has the same form for singular and plural."] :=
  ⟨(c5_amended_noun_forms.1 _ (by decide)).1,
   (c5_amended_noun_forms.2.1 _ (by decide) (by decide)).2,
   (c5_amended_noun_forms.2.2.1 _ _ (by decide)).1,
   c5_amended_noun_forms.2.2.2.1 _ (by decide) (by decide) (by decide)⟩

/-- C8: for every `(word, pos)`, `generateStaticPractice` computes
`hash = sum of character codes of word` (`charCodeSum`) and picks the
speaking prompt at `hash mod length(speak list)` and, independently with the
same hash, the writing task at `hash mod length(write list)` of the tag's
category; `generateStaticGrammarNote` selects with the identical scheme over
its own per-category note list.  The selected indices are always in range. -/
theorem c8_hash_selection : ∀ w p : String,
    (generateStaticPractice w p).speakingPrompt =
      (speakListFor (cleanPosOf p.toList) w).getD
        (charCodeSum w.toList % (speakListFor (cleanPosOf p.toList) w).length) "" ∧
    (generateStaticPractice w p).writingTask =
      (writeListFor (cleanPosOf p.toList) w).getD
        (charCodeSum w.toList % (writeListFor (cleanPosOf p.toList) w).length) "" ∧
    generateStaticGrammarNote w p =
      (noteListFor (cleanPosOf p.toList) w).getD
        (charCodeSum w.toList % (noteListFor (cleanPosOf p.toList) w).length) "" ∧
    charCodeSum w.toList % (speakListFor (cleanPosOf p.toList) w).length <
      (speakListFor (cleanPosOf p.toList) w).length ∧
    charCodeSum w.toList % (writeListFor (cleanPosOf p.toList) w).length <
      (writeListFor (cleanPosOf p.toList) w).length ∧
    charCodeSum w.toList % (noteListFor (cleanPosOf p.toList) w).length <
      (noteListFor (cleanPosOf p.toList) w).length := by
  intro w p
  refine ⟨rfl, rfl, rfl, ?_, ?_, ?_⟩ <;>
    (apply Nat.mod_lt
     cases cleanPosOf p.toList <;> simp [speakListFor, writeListFor, noteListFor])

/-- C9: the spec says `deriveForms` is total and never raises, but the
JavaScript lookup `IRREGULAR_VERBS[word]` consults the prototype chain, so
for the words `constructor` and `__proto__` with a verb tag the destructuring
of the inherited non-iterable value throws a `TypeError`.  On every other
input the function is total and agrees with the pure model. -/
theorem c9_prototype_crash :
    getWordFormsJS "constructor".toList "verb".toList = .error jsNotIterableMsg ∧
    getWordFormsJS "__proto__".toList "verb".toList = .error jsNotIterableMsg ∧
    (∀ w p : List Char,
      getWordFormsJS w p = .ok (getWordFormsL w p) ∨
      (getWordFormsJS w p = .error jsNotIterableMsg ∧
        memberSet OBJECT_PROTOTYPE_KEYS (trimStr (lowerStr w)) = true)) := by
  refine ⟨rfl, rfl, ?_⟩
  intro w p
  simp only [getWordFormsJS, getWordFormsL]
  by_cases hv : (containsStr (lowerStr p) "verb".toList &&
      !containsStr (lowerStr p) "adverb".toList) = true
  · rw [if_pos hv, if_pos hv]
    unfold generateVerbFormsJS
    cases hjl : jsVerbTableLookup (trimStr (lowerStr w)) with
    | tuple ps pp => left; rfl
    | protoValue =>
      right
      refine ⟨rfl, ?_⟩
      unfold jsVerbTableLookup at hjl
      cases hlk : lookupIrregularVerb (trimStr (lowerStr w)) with
      | some v =>
        rw [hlk] at hjl
        cases v
        simp at hjl
      | none =>
        rw [hlk] at hjl
        by_cases hm : memberSet OBJECT_PROTOTYPE_KEYS (trimStr (lowerStr w)) = true
        · exact hm
        · rw [if_neg hm] at hjl
          simp at hjl
    | absent => left; rfl
  · rw [if_neg hv, if_neg hv]
    left
    split
    · rfl
    · split <;> rfl

end VocabMaster
